import Mathlib

/-!
Verification development for the song_tracker2 service (Go).
We shallowly embed the core of the service: parameter validation
(getParametersTopArtists), the connection manager (getDb), the router
(ServeHTTP dispatch), the top-artists aggregation query
(retrieveTopArtists), and the response builder (responseTopArtists,
send500Error), and prove the specified properties about them.
-/

namespace SongTracker

/-! ## Basic data model (from part_003) -/

/-- TopResult holds row data for a top-artist request: a count and a label. -/
structure TopResult where
  count : Int
  label : String
  deriving DecidableEq, Repr

/-- A play record in the store: user id, song id, creation timestamp
(modelled as an integer number of seconds). -/
structure Play where
  userId : Int
  songId : Int
  createTime : Int
  deriving DecidableEq, Repr

/-- A song record in the store: id, artist, album, title. -/
structure Song where
  id : Int
  artist : String
  album : String
  title : String
  deriving DecidableEq, Repr

/-- The relational store visible to the aggregation query. -/
structure Store where
  plays : List Play
  songs : List Song
  deriving DecidableEq, Repr

/-- TopLimitMax defines the maximum number of top results responded to. -/
def TopLimitMax : Int := 100

/-! ## strconv.ParseInt(s, 10, 64) embedding -/

/-- Decimal value of a digit list (most significant first). -/
def digitsVal (ds : List Char) : Nat :=
  ds.foldl (fun acc c => acc * 10 + (c.toNat - 48)) 0

/-- Embedding of Go strconv.ParseInt(s, 10, 64): optional sign, then a
non-empty run of decimal digits, with an int64 range check; `none` is the
error case. -/
def parseInt64 (s : String) : Option Int :=
  let p : Bool × List Char :=
    match s.data with
    | '-' :: rest => (true, rest)
    | '+' :: rest => (false, rest)
    | rest => (false, rest)
  if p.2.isEmpty then none
  else if p.2.all (fun c => c.isDigit) then
    let v : Int := if p.1 then -(digitsVal p.2 : Int) else (digitsVal p.2 : Int)
    if -(2 ^ 63) ≤ v ∧ v ≤ 2 ^ 63 - 1 then some v else none
  else none

/-! ## Form and parameter validation (getParametersTopArtists) -/

/-- A parsed request form: request.Form as an association list from
parameter name to the list of supplied values. -/
abbrev Form := List (String × List String)

/-- Form lookup, mirroring Go map access `request.Form[key]`:
`none` means the key is absent. -/
def Form.get (f : Form) (k : String) : Option (List String) :=
  (f.find? (fun kv => kv.1 == k)).map (fun kv => kv.2)

/-- Embedding of getParametersTopArtists: retrieves and validates
user_id (required, one value, non-negative), limit (required, one value,
in [1, TopLimitMax]) and days_back (optional; when present with exactly
one value it must parse as an integer ≥ 1; otherwise the all-time
sentinel -1 is used). Returns (userId, limit, daysBack) or an error. -/
def getParametersTopArtists (form : Form) : Except String (Int × Int × Int) :=
  match form.get "user_id" with
  | none => .error "No user ID given"
  | some userIdStr =>
    if userIdStr.length ≠ 1 then .error "No user ID given"
    else match parseInt64 (userIdStr.headD "") with
    | none => .error "invalid syntax for user ID"
    | some userId =>
      if userId < 0 then .error "Invalid user ID"
      else match form.get "limit" with
      | none => .error "No limit given"
      | some limitStr =>
        if limitStr.length ≠ 1 then .error "No limit given"
        else match parseInt64 (limitStr.headD "") with
        | none => .error "invalid syntax for limit"
        | some limit =>
          if limit < 1 ∨ limit > TopLimitMax then .error "Invalid limit"
          else match form.get "days_back" with
          | none => .ok (userId, limit, -1)
          | some daysBackStr =>
            if daysBackStr.length = 1 then
              match parseInt64 (daysBackStr.headD "") with
              | none => .error "invalid syntax for days back"
              | some daysBack =>
                if daysBack < 1 then .error "Invalid days back"
                else .ok (userId, limit, daysBack)
            else .ok (userId, limit, -1)

/-! ## Aggregation query (retrieveTopArtists) -/

/-- The number of days the time window reaches back: daysBack itself,
or 365250 days (the "1000 years" interval, 1000 Julian years) when
daysBack is the all-time sentinel -1. -/
def effectiveDays (daysBack : Int) : Int :=
  if daysBack = -1 then 365250 else daysBack

/-- The lower time bound of the query window: rows must satisfy
create_time > now - interval, with the interval converted to seconds. -/
def cutoffFor (now daysBack : Int) : Int :=
  now - effectiveDays daysBack * 86400

/-- All (play, song) pairs produced by joining play to song on
p.song_id = s.id. Rows where the join finds no song are dropped, as the
WHERE clause `s.artist != 'N/A'` rejects the NULL artist of an unmatched
LEFT JOIN row. -/
def matchedRows (st : Store) : List (Play × Song) :=
  st.plays.flatMap (fun p =>
    (st.songs.filter (fun s => s.id == p.songId)).map (fun s => (p, s)))

/-- The rows surviving the WHERE clause for the given user and cutoff,
projected to (song id, artist label). -/
def queryRows (st : Store) (userId cutoff : Int) : List (Int × String) :=
  ((matchedRows st).filter (fun r =>
    r.1.userId == userId && r.2.artist != "N/A" && r.1.createTime > cutoff)).map
    (fun r => (r.2.id, r.2.artist))

/-- The count the GROUP BY produces for an artist label: COUNT(s.id)
counts the surviving joined rows in the group, i.e. one per play. -/
def artistCount (st : Store) (userId cutoff : Int) (a : String) : Nat :=
  (queryRows st userId cutoff).countP (fun r => r.2 == a)

/-- Insert a result into a list sorted by count descending. -/
def insertByCountDesc (r : TopResult) : List TopResult → List TopResult
  | [] => [r]
  | x :: xs => if x.count ≥ r.count then x :: insertByCountDesc r xs else r :: x :: xs

/-- Sort results by count descending (ORDER BY count DESC; the order among
equal counts is unspecified in the store, and arbitrary here). -/
def sortByCountDesc : List TopResult → List TopResult
  | [] => []
  | x :: xs => insertByCountDesc x (sortByCountDesc xs)

/-- The GROUP BY stage: one TopResult per distinct artist label among the
surviving rows, with count COUNT(s.id), i.e. `artistCount`. -/
def groupedCounts (st : Store) (userId cutoff : Int) : List TopResult :=
  ((queryRows st userId cutoff).map (fun r => r.2)).eraseDups.map
    (fun a => TopResult.mk (artistCount st userId cutoff a : Nat) a)

/-- Embedding of the query of retrieveTopArtists: join play to song, keep
rows of the given user inside the time window whose artist label is not
the sentinel 'N/A', group by artist label with COUNT(s.id) as the group
count, order by count descending, and truncate to limit rows. -/
def topArtistsQuery (st : Store) (userId limit daysBack now : Int) :
    List TopResult :=
  (sortByCountDesc (groupedCounts st userId (cutoffFor now daysBack))).take
    limit.toNat

/-- Modelled from the spec (claim C1's reading of it): the distinct-song
count of an artist — the number of distinct song ids among the artist's
surviving rows. -/
def artistDistinctSongCount (st : Store) (userId cutoff : Int) (a : String) :
    Nat :=
  (((queryRows st userId cutoff).filter (fun r => r.2 == a)).map
    (fun r => r.1)).eraseDups.length

/-- Modelled from the spec (claim C1's reading of it): the same query but
with each group's count the number of DISTINCT songs for the artist,
rather than the number of joined rows. Used only to compare against
`topArtistsQuery`, which is the embedding of the code. -/
def topArtistsDistinctSongs (st : Store) (userId limit daysBack now : Int) :
    List TopResult :=
  (sortByCountDesc
    (((queryRows st userId (cutoffFor now daysBack)).map (fun r => r.2)).eraseDups.map
      (fun a => TopResult.mk
        (artistDistinctSongCount st userId (cutoffFor now daysBack) a : Nat) a))).take
    limit.toNat

/-! ## Response writer (http.ResponseWriter effects) -/

/-- One effect on the response writer. Go semantics: the status of the
response is the argument of the first WriteHeader call, or 200 if a body
Write happens first; if nothing is ever written the response is empty. -/
inductive WriteEvent
  | setHeader (key value : String)
  | writeHeader (status : Nat)
  | write (body : String)
  deriving DecidableEq, Repr

/-- The HTTP status the event sequence produces: first explicit
WriteHeader wins; an initial body Write implies 200; none if no event
writes anything. -/
def responseStatus : List WriteEvent → Option Nat
  | [] => none
  | .setHeader _ _ :: rest => responseStatus rest
  | .writeHeader s :: _ => some s
  | .write _ :: _ => some 200

/-- Embedding of send500Error: write status 500 and the message as body. -/
def send500Error (message : String) : List WriteEvent :=
  [.writeHeader 500, .write message]

/-! ## Response building (responseTopArtists / json.Marshal) -/

/-- JSON escaping of one character, as in Go encoding/json (quote and
backslash escaped; labels in this development contain no control
characters or HTML-escaped characters). -/
def jsonEscapeChar (c : Char) : String :=
  if c = '"' then "\\\"" else if c = '\\' then "\\\\" else String.singleton c

/-- A JSON string literal for a label. -/
def jsonString (s : String) : String :=
  "\"" ++ String.join (s.data.map jsonEscapeChar) ++ "\""

/-- json.Marshal of one TopResult struct value. -/
def marshalTopResult (r : TopResult) : String :=
  "\x7b\"Count\":" ++ toString r.count ++ ",\"Label\":" ++ jsonString r.label ++ "\x7d"

/-- json.Marshal of the Counts slice: the nil slice (produced when the
row loop appended nothing) marshals to JSON null, a non-empty slice to an
array. In retrieveTopArtists the slice is nil exactly when it is empty. -/
def marshalCounts : List TopResult → String
  | [] => "null"
  | counts => "[" ++ String.intercalate "," (counts.map marshalTopResult) ++ "]"

/-- json.Marshal of the TopResponse struct wrapping the Counts slice. -/
def marshalTopResponse (counts : List TopResult) : String :=
  "\x7b\"Counts\":" ++ marshalCounts counts ++ "\x7d"

/-! ## handlerTopArtists and handlerTopSongs -/

/-- The effectful collaborators of handlerTopArtists, abstracted: the
store query (retrieveTopArtists, which performs I/O) and json.Marshal
(whose error branch the handler checks). `Except.error` carries the
error message. -/
structure HandlerEnv where
  retrieve : Int → Int → Int → Except String (List TopResult)
  marshal : List TopResult → Except String String

/-- The marshaller that actually runs in the program: json.Marshal never
fails on TopResponse, producing `marshalTopResponse`. -/
def goodMarshal (counts : List TopResult) : Except String String :=
  .ok (marshalTopResponse counts)

/-- Embedding of responseTopArtists' success path: marshal (already done
by the caller), set the Content-Type header, write the body. -/
def responseTopArtists (body : String) : List WriteEvent :=
  [.setHeader "Content-Type" "application/json; charset=utf8", .write body]

/-- Embedding of handlerTopArtists: validate parameters, query the top
artists, marshal and send the response; each failure short-circuits into
send500Error with a prefixed message. -/
def handlerTopArtists (env : HandlerEnv) (form : Form) : List WriteEvent :=
  match getParametersTopArtists form with
  | .error e => send500Error ("Failed to retrieve parameters: " ++ e)
  | .ok (userId, limit, daysBack) =>
    match env.retrieve userId limit daysBack with
    | .error e => send500Error ("Failed to retrieve top artists: " ++ e)
    | .ok counts =>
      match env.marshal counts with
      | .error e => send500Error ("Failed to generate response: " ++ e)
      | .ok b => responseTopArtists b

/-- Embedding of handlerTopSongs: the body is a bare TODO comment, so the
handler performs no effect at all. -/
def handlerTopSongs (_env : HandlerEnv) (_form : Form) : List WriteEvent :=
  []

/-! ## Router (ServeHTTP) -/

/-- A registered route: method, path regex pattern, and an identifier of
the handler function. -/
structure RequestHandler where
  method : String
  pathPattern : String
  handlerId : Nat
  deriving DecidableEq, Repr

/-- The fixed route table built in ServeHTTP, mounted under the
configured URI pre-string: handler 0 is top/artists, handler 1 is
top/songs. -/
def routeTable (mount : String) : List RequestHandler :=
  [⟨"GET", "^" ++ mount ++ "/top/artists", 0⟩,
   ⟨"GET", "^" ++ mount ++ "/top/songs", 1⟩]

/-- Outcome of the dispatch loop. -/
inductive DispatchResult
  | dispatched (i : Nat)
  | notFound
  deriving DecidableEq, Repr

/-- Embedding of ServeHTTP's loop. `ms pattern path` models
regexp.MatchString: `none` is a pattern error (logged and skipped),
`some b` a successful match test. Entries are scanned in registration
order; a non-equal method or a failed/unsuccessful match moves on. -/
def dispatch (ms : String → String → Option Bool) :
    List RequestHandler → String → String → DispatchResult
  | [], _, _ => .notFound
  | h :: rest, method, path =>
    if h.method ≠ method then dispatch ms rest method path
    else match ms h.pathPattern path with
      | none => dispatch ms rest method path
      | some false => dispatch ms rest method path
      | some true => .dispatched h.handlerId

/-- Whether an entry matches the request: method exactly equal and the
pattern match succeeded (a pattern error counts as no match). -/
def entryMatches (ms : String → String → Option Bool) (method path : String)
    (h : RequestHandler) : Bool :=
  h.method == method && (ms h.pathPattern path).getD false

/-- Embedding of ServeHTTP: dispatch, run the selected handler's writes,
or write the 404 response. -/
def serveHTTP (ms : String → String → Option Bool)
    (handlers : List RequestHandler) (run : Nat → List WriteEvent)
    (method path : String) : List WriteEvent :=
  match dispatch ms handlers method path with
  | .dispatched i => run i
  | .notFound => [.writeHeader 404, .write "404 Not Found"]

/-! ## Connection manager (getDb) -/

/-- An abstract open database handle. -/
structure DbHandle where
  id : Nat
  deriving DecidableEq, Repr

/-- The outside world getDb interacts with during one call: the outcome
of db.Ping() on a held handle and the outcome of connectToDb (none is a
failed open). -/
structure DbWorld where
  pingOk : DbHandle → Bool
  openResult : Option DbHandle

/-- What one getDb call did: the value of the shared Db variable
afterwards, the returned handle (none is the error return), and how many
connectToDb open attempts were made. -/
structure GetDbOutcome where
  newDb : Option DbHandle
  result : Option DbHandle
  openAttempts : Nat
  deriving DecidableEq, Repr

/-- Embedding of getDb: if a handle is held, ping it and on failure close
it and clear the shared variable; then, if no handle is held, make one
connectToDb attempt; return the shared handle or the open error. -/
def getDb (w : DbWorld) (db0 : Option DbHandle) : GetDbOutcome :=
  let db1 : Option DbHandle :=
    match db0 with
    | some h => if w.pingOk h then some h else none
    | none => none
  match db1 with
  | some h => ⟨some h, some h, 0⟩
  | none =>
    match w.openResult with
    | some h => ⟨some h, some h, 1⟩
    | none => ⟨none, none, 1⟩

/-! ## Sorting lemmas -/

/-- The descending-count order: a may precede b. -/
def countGE (a b : TopResult) : Prop := b.count ≤ a.count

lemma mem_insertByCountDesc {x r : TopResult} {l : List TopResult} :
    x ∈ insertByCountDesc r l ↔ x = r ∨ x ∈ l := by
  induction l with
  | nil => simp [insertByCountDesc]
  | cons y ys ih =>
    simp only [insertByCountDesc]
    split
    · simp only [List.mem_cons, ih]
      tauto
    · simp

lemma length_insertByCountDesc (r : TopResult) (l : List TopResult) :
    (insertByCountDesc r l).length = l.length + 1 := by
  induction l with
  | nil => rfl
  | cons y ys ih =>
    simp only [insertByCountDesc]
    split <;> simp [ih]

lemma length_sortByCountDesc (l : List TopResult) :
    (sortByCountDesc l).length = l.length := by
  induction l with
  | nil => rfl
  | cons y ys ih => simp [sortByCountDesc, length_insertByCountDesc, ih]

lemma mem_sortByCountDesc {x : TopResult} {l : List TopResult} :
    x ∈ sortByCountDesc l ↔ x ∈ l := by
  induction l with
  | nil => simp [sortByCountDesc]
  | cons y ys ih => simp [sortByCountDesc, mem_insertByCountDesc, ih]

lemma pairwise_insertByCountDesc {r : TopResult} {l : List TopResult}
    (hl : l.Pairwise countGE) :
    (insertByCountDesc r l).Pairwise countGE := by
  induction l with
  | nil => simp [insertByCountDesc]
  | cons y ys ih =>
    rw [List.pairwise_cons] at hl
    obtain ⟨hy, hys⟩ := hl
    simp only [insertByCountDesc]
    split
    · rename_i hc
      rw [List.pairwise_cons]
      refine ⟨?_, ih hys⟩
      intro z hz
      rcases mem_insertByCountDesc.mp hz with rfl | hz
      · exact hc
      · exact hy z hz
    · rename_i hc
      rw [List.pairwise_cons]
      refine ⟨?_, List.pairwise_cons.mpr ⟨hy, hys⟩⟩
      intro z hz
      rcases List.mem_cons.mp hz with rfl | hz
      · exact le_of_lt (lt_of_not_ge hc)
      · exact le_trans (hy z hz) (le_of_lt (lt_of_not_ge hc))

lemma pairwise_sortByCountDesc (l : List TopResult) :
    (sortByCountDesc l).Pairwise countGE := by
  induction l with
  | nil => simp [sortByCountDesc]
  | cons y ys ih => exact pairwise_insertByCountDesc ih

/-! ## Claim theorems -/

/-- C1 (counterexample): the claim says each group's count is the number
of distinct songs for the artist, not the raw number of plays. On a store
where user 1 played the one song of artist A twice, the code's query
returns count 2 (one per joined play row) while the distinct-song reading
returns count 1, so the claim as stated is false. -/
theorem topArtistsQuery_ne_distinctSongs :
    topArtistsQuery ⟨[⟨1, 1, 0⟩, ⟨1, 1, 10⟩], [⟨1, "A", "al", "ti"⟩]⟩ 1 5 (-1) 100 ≠
    topArtistsDistinctSongs ⟨[⟨1, 1, 0⟩, ⟨1, 1, 10⟩], [⟨1, "A", "al", "ti"⟩]⟩ 1 5 (-1) 100 := by
  decide

/-- C1 (amended): every entry returned by the top-artists query carries as
its Count the number of play rows joined to song rows for that artist
label — restricted to the given user and time window and excluding the
sentinel 'N/A' label — i.e. the raw play count, not a distinct-song
count. -/
theorem topArtistsQuery_counts_play_rows (st : Store) (u lim d now : Int)
    (r : TopResult) (hr : r ∈ topArtistsQuery st u lim d now) :
    r.count = (artistCount st u (cutoffFor now d) r.label : Int) := by
  have h1 : r ∈ sortByCountDesc (groupedCounts st u (cutoffFor now d)) :=
    List.mem_of_mem_take hr
  have h2 : r ∈ groupedCounts st u (cutoffFor now d) :=
    mem_sortByCountDesc.mp h1
  obtain ⟨a, _, h⟩ := List.mem_map.mp h2
  subst h
  rfl

/-- C1: witness for the amended theorem at a concrete store. -/
theorem topArtistsQuery_counts_play_rows_witness :
    (⟨2, "A"⟩ : TopResult) ∈
      topArtistsQuery ⟨[⟨1, 1, 0⟩, ⟨1, 1, 10⟩], [⟨1, "A", "al", "ti"⟩]⟩ 1 5 (-1) 100 ∧
    (⟨2, "A"⟩ : TopResult).count =
      (artistCount ⟨[⟨1, 1, 0⟩, ⟨1, 1, 10⟩], [⟨1, "A", "al", "ti"⟩]⟩ 1
        (cutoffFor 100 (-1)) "A" : Int) :=
  ⟨by decide,
   topArtistsQuery_counts_play_rows _ 1 5 (-1) 100 ⟨2, "A"⟩ (by decide)⟩

/-- C2: a successful top-artists query with a valid limit in
[1, TopLimitMax] returns at most limit entries, its Count values are
non-increasing across consecutive entries, and the empty result is an
ordinary success value (the query of the empty store). -/
theorem topArtistsQuery_bounded_sorted (st : Store) (u limit d now : Int)
    (h1 : 1 ≤ limit) (h2 : limit ≤ TopLimitMax) :
    ((topArtistsQuery st u limit d now).length : Int) ≤ limit ∧
    List.Chain' countGE (topArtistsQuery st u limit d now) ∧
    topArtistsQuery ⟨[], []⟩ u limit d now = [] := by
  refine ⟨?_, ?_, ?_⟩
  · have hlen : (topArtistsQuery st u limit d now).length ≤ limit.toNat := by
      simp [topArtistsQuery, List.length_take]
    calc ((topArtistsQuery st u limit d now).length : Int)
        ≤ (limit.toNat : Int) := Int.ofNat_le.mpr hlen
      _ = limit := Int.toNat_of_nonneg (by omega)
  · simp only [topArtistsQuery]
    exact ((pairwise_sortByCountDesc _).chain').take _
  · simp [topArtistsQuery, groupedCounts, queryRows, artistCount, matchedRows,
      sortByCountDesc]

/-- C2: witness at a concrete store and limit. -/
theorem topArtistsQuery_bounded_sorted_witness :
    ((topArtistsQuery ⟨[⟨1, 1, 0⟩], [⟨1, "A", "al", "ti"⟩]⟩ 1 5 (-1) 100).length : Int) ≤ 5 ∧
    List.Chain' countGE
      (topArtistsQuery ⟨[⟨1, 1, 0⟩], [⟨1, "A", "al", "ti"⟩]⟩ 1 5 (-1) 100) ∧
    topArtistsQuery ⟨[], []⟩ 1 5 (-1) 100 = [] :=
  topArtistsQuery_bounded_sorted ⟨[⟨1, 1, 0⟩], [⟨1, "A", "al", "ti"⟩]⟩ 1 5 (-1) 100
    (by decide) (by decide)

/-- parseInt64 on the literal "1". -/
lemma parseInt64_one : parseInt64 "1" = some 1 := rfl

/-- C3 (counterexample): with valid user_id and limit and days_back
supplied twice, validation does not fail: the multi-valued days_back is
silently treated as absent and the all-time sentinel -1 is used. -/
theorem getParameters_daysBack_two_values_ok :
    getParametersTopArtists
      [("user_id", ["1"]), ("limit", ["5"]), ("days_back", ["2", "3"])] =
      .ok (1, 5, -1) := rfl

/-- C3 (amended): with valid user_id and limit, days_back absent or
present with a number of values different from one yields the all-time
sentinel -1; present with exactly one value, a non-integer value or an
integer value below 1 fails validation, and an integer value ≥ 1 is
accepted. -/
theorem getParameters_daysBack_amended (su sl : String) (ds : List String)
    (u l : Int)
    (hu : parseInt64 su = some u) (hu0 : 0 ≤ u)
    (hl : parseInt64 sl = some l) (hl1 : 1 ≤ l) (hl2 : l ≤ TopLimitMax) :
    (getParametersTopArtists [("user_id", [su]), ("limit", [sl])] =
      .ok (u, l, -1)) ∧
    (ds.length ≠ 1 →
      getParametersTopArtists
        [("user_id", [su]), ("limit", [sl]), ("days_back", ds)] =
        .ok (u, l, -1)) ∧
    (∀ s, ds = [s] → parseInt64 s = none →
      getParametersTopArtists
        [("user_id", [su]), ("limit", [sl]), ("days_back", ds)] =
        .error "invalid syntax for days back") ∧
    (∀ s d, ds = [s] → parseInt64 s = some d → d < 1 →
      getParametersTopArtists
        [("user_id", [su]), ("limit", [sl]), ("days_back", ds)] =
        .error "Invalid days back") ∧
    (∀ s d, ds = [s] → parseInt64 s = some d → 1 ≤ d →
      getParametersTopArtists
        [("user_id", [su]), ("limit", [sl]), ("days_back", ds)] =
        .ok (u, l, d)) := by
  refine ⟨?_, ?_, ?_, ?_, ?_⟩
  · simp [getParametersTopArtists, Form.get, hu, hl, not_lt.mpr hu0,
      not_lt.mpr hl1, not_lt.mpr hl2]
  · intro hds
    simp [getParametersTopArtists, Form.get, hu, hl, not_lt.mpr hu0,
      not_lt.mpr hl1, not_lt.mpr hl2, hds]
  · rintro s rfl hs
    simp [getParametersTopArtists, Form.get, hu, hl, not_lt.mpr hu0,
      not_lt.mpr hl1, not_lt.mpr hl2, hs]
  · rintro s d rfl hd hlt
    simp [getParametersTopArtists, Form.get, hu, hl, not_lt.mpr hu0,
      not_lt.mpr hl1, not_lt.mpr hl2, hd, hlt]
  · rintro s d rfl hd hge
    simp [getParametersTopArtists, Form.get, hu, hl, not_lt.mpr hu0,
      not_lt.mpr hl1, not_lt.mpr hl2, hd, not_lt.mpr hge]

/-- C3: witness — concrete instances of each clause of the amended
theorem: absent days_back, a two-valued days_back, a non-integer value, a
zero value, and a valid value. -/
theorem getParameters_daysBack_amended_witness :
    (getParametersTopArtists [("user_id", ["1"]), ("limit", ["1"])] =
      .ok (1, 1, -1)) ∧
    (getParametersTopArtists
      [("user_id", ["1"]), ("limit", ["1"]), ("days_back", ["2", "3"])] =
      .ok (1, 1, -1)) ∧
    (getParametersTopArtists
      [("user_id", ["1"]), ("limit", ["1"]), ("days_back", ["x"])] =
      .error "invalid syntax for days back") ∧
    (getParametersTopArtists
      [("user_id", ["1"]), ("limit", ["1"]), ("days_back", ["0"])] =
      .error "Invalid days back") ∧
    (getParametersTopArtists
      [("user_id", ["1"]), ("limit", ["1"]), ("days_back", ["7"])] =
      .ok (1, 1, 7)) :=
  ⟨(getParameters_daysBack_amended "1" "1" ["2", "3"] 1 1 rfl (by decide) rfl
      (by decide) (by decide)).1,
   (getParameters_daysBack_amended "1" "1" ["2", "3"] 1 1 rfl (by decide) rfl
      (by decide) (by decide)).2.1 (by decide),
   (getParameters_daysBack_amended "1" "1" ["x"] 1 1 rfl (by decide) rfl
      (by decide) (by decide)).2.2.1 "x" rfl rfl,
   (getParameters_daysBack_amended "1" "1" ["0"] 1 1 rfl (by decide) rfl
      (by decide) (by decide)).2.2.2.1 "0" 0 rfl rfl (by decide),
   (getParameters_daysBack_amended "1" "1" ["7"] 1 1 rfl (by decide) rfl
      (by decide) (by decide)).2.2.2.2 "7" 7 rfl rfl (by decide)⟩

/-- C4: validation of the limit parameter succeeds exactly when limit is
supplied as one value parsing to an integer in [1, TopLimitMax]; in
particular 0 and 101 are rejected while 1 and 100 are accepted (user_id
fixed to a valid value, days_back absent). -/
theorem getParameters_limit_iff :
    (∀ ls : List String,
      (getParametersTopArtists [("user_id", ["1"]), ("limit", ls)]).isOk = true ↔
      ∃ s n, ls = [s] ∧ parseInt64 s = some n ∧ 1 ≤ n ∧ n ≤ TopLimitMax) ∧
    getParametersTopArtists [("user_id", ["1"]), ("limit", ["0"])] =
      .error "Invalid limit" ∧
    getParametersTopArtists [("user_id", ["1"]), ("limit", ["101"])] =
      .error "Invalid limit" ∧
    (getParametersTopArtists [("user_id", ["1"]), ("limit", ["1"])]).isOk = true ∧
    (getParametersTopArtists [("user_id", ["1"]), ("limit", ["100"])]).isOk = true := by
  refine ⟨?_, rfl, rfl, rfl, rfl⟩
  intro ls
  constructor
  · intro hok
    match ls with
    | [] =>
      simp [getParametersTopArtists, Form.get, parseInt64_one,
        Except.isOk, Except.toBool] at hok
    | s :: s' :: rest =>
      simp [getParametersTopArtists, Form.get, parseInt64_one,
        Except.isOk, Except.toBool] at hok
    | [s] =>
      cases hp : parseInt64 s with
      | none =>
        simp [getParametersTopArtists, Form.get, parseInt64_one, hp,
          Except.isOk, Except.toBool] at hok
      | some n =>
        by_cases hn : n < 1 ∨ n > TopLimitMax
        · simp [getParametersTopArtists, Form.get, parseInt64_one, hp, hn,
            Except.isOk, Except.toBool] at hok
        · push_neg at hn
          exact ⟨s, n, rfl, hp, hn.1, hn.2⟩
  · rintro ⟨s, n, rfl, hp, h1, h2⟩
    simp [getParametersTopArtists, Form.get, parseInt64_one, hp,
      not_lt.mpr h1, not_lt.mpr h2, Except.isOk, Except.toBool]

/-- C4: witness — limit supplied as the single value "5" validates. -/
theorem getParameters_limit_iff_witness :
    (getParametersTopArtists [("user_id", ["1"]), ("limit", ["5"])]).isOk =
      true :=
  (getParameters_limit_iff.1 ["5"]).mpr ⟨"5", 5, rfl, rfl, by decide, by decide⟩

/-- The dispatch loop returns the first registered entry whose method is
exactly the request method and whose pattern matches, pattern errors
counting as non-matches. -/
lemma dispatch_eq_find (ms : String → String → Option Bool)
    (hs : List RequestHandler) (method path : String) :
    dispatch ms hs method path =
      match hs.find? (entryMatches ms method path) with
      | some e => DispatchResult.dispatched e.handlerId
      | none => DispatchResult.notFound := by
  induction hs with
  | nil => rfl
  | cons h rest ih =>
    by_cases hm : h.method = method
    · cases hms : ms h.pathPattern path with
      | none => simp [dispatch, List.find?, entryMatches, hm, hms, ih]
      | some b =>
        cases b with
        | false => simp [dispatch, List.find?, entryMatches, hm, hms, ih]
        | true => simp [dispatch, List.find?, entryMatches, hm, hms]
    · simp [dispatch, List.find?, entryMatches, hm,
        beq_eq_false_iff_ne.mpr hm, ih]

/-- C5: dispatch scans the registered entries in order and selects the
first whose method equals the request method exactly and whose
start-anchored pattern matches (a malformed pattern, `ms _ _ = none`,
counts as a non-match); when no entry matches, the response is status 404
with body exactly "404 Not Found". -/
theorem serveHTTP_first_match_or_404 (ms : String → String → Option Bool)
    (hs : List RequestHandler) (run : Nat → List WriteEvent)
    (method path : String) :
    (dispatch ms hs method path =
      match hs.find? (entryMatches ms method path) with
      | some e => DispatchResult.dispatched e.handlerId
      | none => DispatchResult.notFound) ∧
    (∀ e, hs.find? (entryMatches ms method path) = some e →
      serveHTTP ms hs run method path = run e.handlerId) ∧
    (hs.find? (entryMatches ms method path) = none →
      serveHTTP ms hs run method path =
        [.writeHeader 404, .write "404 Not Found"] ∧
      responseStatus (serveHTTP ms hs run method path) = some 404) := by
  refine ⟨dispatch_eq_find ms hs method path, ?_, ?_⟩
  · intro e he
    simp [serveHTTP, dispatch_eq_find, he]
  · intro hnone
    simp [serveHTTP, dispatch_eq_find, hnone, responseStatus]

/-- C5: witness — a GET request under the route table for which every
pattern match fails yields the 404 response with the fixed body. -/
theorem serveHTTP_first_match_or_404_witness :
    serveHTTP (fun _ _ => some false) (routeTable "/st") (fun _ => [])
      "GET" "/nope" = [.writeHeader 404, .write "404 Not Found"] ∧
    responseStatus (serveHTTP (fun _ _ => some false) (routeTable "/st")
      (fun _ => []) "GET" "/nope") = some 404 :=
  (serveHTTP_first_match_or_404 (fun _ _ => some false) (routeTable "/st")
    (fun _ => []) "GET" "/nope").2.2 rfl

/-- C6: when the held handle's liveness probe fails, getDb discards it,
clears the shared reference, makes exactly one open attempt whose outcome
is returned and stored; if that open fails the call errors without
retrying, and a subsequent call whose own open fails again makes exactly
one attempt and errors. -/
theorem getDb_failed_ping_single_reconnect (w w' : DbWorld) (h : DbHandle)
    (hping : w.pingOk h = false) :
    ((getDb w (some h)).newDb = w.openResult ∧
     (getDb w (some h)).result = w.openResult ∧
     (getDb w (some h)).openAttempts = 1) ∧
    (w.openResult = none → getDb w (some h) = ⟨none, none, 1⟩) ∧
    (w.openResult = none → w'.openResult = none →
      getDb w' ((getDb w (some h)).newDb) = ⟨none, none, 1⟩) := by
  refine ⟨?_, ?_, ?_⟩
  · cases hw : w.openResult <;> simp [getDb, hping, hw]
  · intro hw
    simp [getDb, hping, hw]
  · intro hw hw'
    simp [getDb, hping, hw, hw']

/-- C6: witness — concrete world where the probe and both opens fail. -/
theorem getDb_failed_ping_single_reconnect_witness :
    getDb ⟨fun _ => false, none⟩ (some ⟨0⟩) =
      (⟨none, none, 1⟩ : GetDbOutcome) ∧
    getDb ⟨fun _ => false, none⟩
      ((getDb ⟨fun _ => false, none⟩ (some ⟨0⟩)).newDb) =
      (⟨none, none, 1⟩ : GetDbOutcome) :=
  ⟨(getDb_failed_ping_single_reconnect ⟨fun _ => false, none⟩
      ⟨fun _ => false, none⟩ ⟨0⟩ rfl).2.1 rfl,
   (getDb_failed_ping_single_reconnect ⟨fun _ => false, none⟩
      ⟨fun _ => false, none⟩ ⟨0⟩ rfl).2.2 rfl rfl⟩

/-- C7: every failure of handlerTopArtists — validation failure, query
failure or marshal failure — writes status 500 with a plain-text body
carrying the prefixed error message and writes no success payload; in
particular validation failures get the generic 500, not a client-error
status. -/
theorem handlerTopArtists_failures_500 (env : HandlerEnv) (form : Form) :
    (∀ e, getParametersTopArtists form = .error e →
      handlerTopArtists env form =
        send500Error ("Failed to retrieve parameters: " ++ e) ∧
      responseStatus (handlerTopArtists env form) = some 500) ∧
    (∀ p e, getParametersTopArtists form = .ok p →
      env.retrieve p.1 p.2.1 p.2.2 = .error e →
      handlerTopArtists env form =
        send500Error ("Failed to retrieve top artists: " ++ e) ∧
      responseStatus (handlerTopArtists env form) = some 500) ∧
    (∀ p counts e, getParametersTopArtists form = .ok p →
      env.retrieve p.1 p.2.1 p.2.2 = .ok counts →
      env.marshal counts = .error e →
      handlerTopArtists env form =
        send500Error ("Failed to generate response: " ++ e) ∧
      responseStatus (handlerTopArtists env form) = some 500) := by
  refine ⟨?_, ?_, ?_⟩
  · intro e he
    simp [handlerTopArtists, he, send500Error, responseStatus]
  · intro p e hp he
    simp [handlerTopArtists, hp, he, send500Error, responseStatus]
  · intro p counts e hp hr hm
    simp [handlerTopArtists, hp, hr, hm, send500Error, responseStatus]

/-- C7: witness — a request with no user_id gets the 500 response. -/
theorem handlerTopArtists_failures_500_witness :
    handlerTopArtists ⟨fun _ _ _ => .error "boom", fun _ => .ok ""⟩ [] =
      send500Error "Failed to retrieve parameters: No user ID given" ∧
    responseStatus
      (handlerTopArtists ⟨fun _ _ _ => .error "boom", fun _ => .ok ""⟩ []) =
      some 500 :=
  (handlerTopArtists_failures_500
    ⟨fun _ _ _ => .error "boom", fun _ => .ok ""⟩ []).1 "No user ID given" rfl

/-- C9: when validation succeeds and the query returns zero rows, the
handler writes the success response with body exactly
\x7b"Counts":null\x7d (the nil slice serializes to JSON null), the JSON
content type, and status 200. -/
theorem handlerTopArtists_empty_null (env : HandlerEnv) (form : Form)
    (p : Int × Int × Int)
    (hp : getParametersTopArtists form = .ok p)
    (hr : env.retrieve p.1 p.2.1 p.2.2 = .ok [])
    (hm : env.marshal = goodMarshal) :
    handlerTopArtists env form =
      [.setHeader "Content-Type" "application/json; charset=utf8",
       .write "\x7b\"Counts\":null\x7d"] ∧
    responseStatus (handlerTopArtists env form) = some 200 := by
  constructor
  · simp [handlerTopArtists, hp, hr, hm, goodMarshal, marshalTopResponse,
      marshalCounts, responseTopArtists]
  · simp [handlerTopArtists, hp, hr, hm, goodMarshal, responseTopArtists,
      responseStatus]

/-- C9: witness — a store query returning no rows under valid
parameters. -/
theorem handlerTopArtists_empty_null_witness :
    handlerTopArtists ⟨fun _ _ _ => .ok [], goodMarshal⟩
      [("user_id", ["1"]), ("limit", ["5"])] =
      [.setHeader "Content-Type" "application/json; charset=utf8",
       .write "\x7b\"Counts\":null\x7d"] ∧
    responseStatus (handlerTopArtists ⟨fun _ _ _ => .ok [], goodMarshal⟩
      [("user_id", ["1"]), ("limit", ["5"])]) = some 200 :=
  handlerTopArtists_empty_null ⟨fun _ _ _ => .ok [], goodMarshal⟩
    [("user_id", ["1"]), ("limit", ["5"])] (1, 5, -1) rfl rfl rfl

/-- C10: the top-songs handler performs no action: it writes no status,
no headers and no body, for every request. -/
theorem handlerTopSongs_writes_nothing (env : HandlerEnv) (form : Form) :
    handlerTopSongs env form = [] ∧
    responseStatus (handlerTopSongs env form) = none :=
  ⟨rfl, rfl⟩

/-- The per-artist play count only grows as the cutoff moves further into
the past. -/
lemma artistCount_anti (st : Store) (u : Int) {c1 c2 : Int} (hc : c1 ≤ c2)
    (a : String) : artistCount st u c2 a ≤ artistCount st u c1 a := by
  unfold artistCount queryRows
  simp only [List.countP_map, List.countP_filter, Function.comp]
  apply List.countP_mono_left
  intro r _ hcond
  simp only [Bool.and_eq_true, decide_eq_true_eq] at hcond ⊢
  refine ⟨hcond.1, ⟨hcond.2.1, ?_⟩⟩
  omega

/-- C8: for a fixed user and store at a fixed instant, a window that
contains another (its effective number of days back is at least the
other's — a larger days_back, or the sentinel against a days_back of at
most 365250) gives every artist a count at least as large. -/
theorem artistCount_window_monotone (st : Store) (u now d1 d2 : Int)
    (hwide : effectiveDays d2 ≤ effectiveDays d1) (a : String) :
    artistCount st u (cutoffFor now d2) a ≤
    artistCount st u (cutoffFor now d1) a := by
  apply artistCount_anti
  unfold cutoffFor
  have h86400 : (0 : Int) < 86400 := by norm_num
  nlinarith [hwide]

/-- C8: witness — all-time window against a 7-day window on a concrete
store. -/
theorem artistCount_window_monotone_witness :
    artistCount ⟨[⟨1, 1, 0⟩], [⟨1, "A", "al", "ti"⟩]⟩ 1 (cutoffFor 100 7) "A" ≤
    artistCount ⟨[⟨1, 1, 0⟩], [⟨1, "A", "al", "ti"⟩]⟩ 1 (cutoffFor 100 (-1)) "A" :=
  artistCount_window_monotone ⟨[⟨1, 1, 0⟩], [⟨1, "A", "al", "ti"⟩]⟩ 1 100 (-1) 7
    (by decide) "A"

end SongTracker
